import Mathlib

/-!
Shallow embedding of the loggers in tblogger.py: TensorBoardLogger and
CsvLogger, together with the external distiller utilities they call
(density, sparsity, sparsity_2D, norm_filters, size_to_str).

Tensors are embedded as a shape (list of dimension sizes) together with a
flat list of rational values, matching the flattened storage a torch
tensor exposes through view(-1) and tolist().  A torch tensor also
carries an optional gradient tensor; only its flat values matter here.

Writer output is embedded as a list of write events: add_scalar,
add_scalars and add_histogram calls become constructors of WriteEvent.
Fallible Python code (a division that can raise ZeroDivisionError) is
embedded with Except.
-/

deriving instance DecidableEq for Except

namespace TBLogger

/-- A torch tensor: shape, flattened data, optional flattened gradient. -/
structure Tensor where
  shape : List Nat
  data : List ℚ
  grad : Option (List ℚ)
deriving DecidableEq

/-- torch dim(): the number of axes. -/
def Tensor.dim (t : Tensor) : Nat := t.shape.length

/-- torch numel(): the product of the dimension sizes. -/
def Tensor.numel (t : Tensor) : Nat := t.shape.prod

/-- Number of entries with nonzero value, as counted by tensor.abs().gt(0).sum(). -/
def Tensor.nonzeroCount (t : Tensor) : Nat :=
  (t.data.filter (fun x => decide (x ≠ 0))).length

/-- The value the distiller density utility computes when the tensor is
nonempty: nonzero count divided by numel. -/
def densityQ (t : Tensor) : ℚ := (t.nonzeroCount : ℚ) / (t.numel : ℚ)

/-- distiller density: float(nonzero)/numel.  On a tensor with numel zero the
Python division raises ZeroDivisionError, embedded as Except.error. -/
def density (t : Tensor) : Except String ℚ :=
  if t.numel = 0 then .error "ZeroDivisionError" else .ok (densityQ t)

/-- The value the distiller sparsity utility computes when density does not
raise: 1 - density. -/
def sparsityQ (t : Tensor) : ℚ := 1 - densityQ t

/-- distiller density_2D, modelled from the external distiller library: for a
4D tensor the 2D structures are the kernels, rows of size shape[2]*shape[3]
of the flattened data; for a 2D tensor they are the rows; other ranks give
density zero.  A structure counts as nonzero when the sum of absolute values
of its entries is nonzero. -/
def density_2D (t : Tensor) : ℚ :=
  if t.dim = 4 ∨ t.dim = 2 then
    let k := if t.dim = 4 then t.shape.getD 2 1 * t.shape.getD 3 1 else t.shape.getD 1 1
    let rows := t.data.toChunks k
    let nonzeroStructs := (rows.filter (fun r => decide ((r.map (fun x => |x|)).sum ≠ 0))).length
    (nonzeroStructs : ℚ) / (rows.length : ℚ)
  else 0

/-- distiller sparsity_2D, modelled from the external distiller library. -/
def sparsity_2D (t : Tensor) : ℚ := 1 - density_2D t

/-- distiller norm_filters with p = 1, modelled from the external distiller
library: the L1 norm of each filter (first-axis slice) of a 4D weight. -/
def norm_filters (t : Tensor) : List ℚ :=
  (t.data.toChunks t.shape.tail.prod).map (fun f => (f.map (fun x => |x|)).sum)

/-- One write into the SummaryWriter: add_scalar, add_scalars or
add_histogram. -/
inductive WriteEvent where
  | scalar (key : String) (value : ℚ) (step : Int)
  | scalars (key : String) (values : List ℚ) (step : Int)
  | histogram (key : String) (values : List ℚ) (step : Int)
deriving DecidableEq

/-- Whether a parameter has rank 2, 3 or 4: param.dim() in [2, 3, 4]. -/
def qualifies (t : Tensor) : Bool := decide (t.dim ∈ [2, 3, 4])

/-- Python str.replace restricted to a one-character pattern and one-character
replacement, as the source uses it: substitute every occurrence of the
character a by the character b. -/
def replaceChar (a b : Char) (s : String) : String :=
  String.mk (s.data.map (fun c => if c = a then b else c))

namespace TensorBoardLogger

/-- Hard-coded preference from the constructor: self.log_gradients = False. -/
def default_log_gradients : Bool := false

/-- Hard-coded preference from the constructor: self.logged_params is the
one-element list holding the word weight. -/
def default_logged_params : List String := ["weight"]

/-- The inner helper of log_training_progress: total*epoch + completed. -/
def total_steps (total epoch completed : Int) : Int := total * epoch + completed

/-- log_training_progress: one add_scalar per stats entry, key built from the
prefixed tag with spaces replaced by underscores.  The stats record is the
pair (key prefix, list of tag-value entries); freq is accepted and unused.
The for loop is embedded as a left fold appending one event per entry. -/
def log_training_progress (stats_dict : String × List (String × ℚ))
    (epoch completed total freq : Int) : List WriteEvent :=
  let pre := stats_dict.1
  stats_dict.2.foldl
    (fun evs tv =>
      evs ++ [WriteEvent.scalar (pre ++ replaceChar (Char.ofNat 32) (Char.ofNat 95) tv.1) tv.2
        (total_steps total epoch completed)])
    []

/-- One loop iteration of log_weights_sparsity: on a qualifying parameter,
call density (which can raise), accumulate params_size and
sparse_params_size, and append the two add_scalar events. -/
def sparsityStep (epoch : Int) (acc : Nat × ℚ × List WriteEvent)
    (p : String × Tensor) : Except String (Nat × ℚ × List WriteEvent) :=
  if qualifies p.2 then do
    let d ← density p.2
    pure (acc.1 + p.2.numel, acc.2.1 + (p.2.numel : ℚ) * d,
      acc.2.2 ++
        [WriteEvent.scalar ("sparsity/weights/" ++ p.1) ((1 - d) * 100) epoch,
         WriteEvent.scalar ("sparsity-2D/weights/" ++ p.1) (sparsity_2D p.2 * 100) epoch])
  else pure acc

/-- log_weights_sparsity over the state dict: loop over the named parameters,
then one aggregate add_scalar computed as 100*(1 - sparse_params_size /
params_size).  When params_size is zero the Python division raises
ZeroDivisionError, embedded as Except.error. -/
def log_weights_sparsity (sd : List (String × Tensor)) (epoch : Int) :
    Except String (List WriteEvent) := do
  let r ← sd.foldlM (sparsityStep epoch) (0, 0, [])
  if r.1 = 0 then throw "ZeroDivisionError"
  else
    pure (r.2.2 ++
      [WriteEvent.scalar "sparsity/weights/total" (100 * (1 - r.2.1 / (r.1 : ℚ))) epoch])

/-- log_weights_filter_magnitude: one add_scalars of the filter L1 norms per
rank-4 parameter. -/
def log_weights_filter_magnitude (sd : List (String × Tensor)) (epoch : Int) :
    List WriteEvent :=
  sd.foldl
    (fun evs p =>
      if p.2.dim = 4 then
        evs ++ [WriteEvent.scalars ("magnitude/filters/" ++ p.1) (norm_filters p.2) epoch]
      else evs)
    []

/-- Python substring containment: sub in tag. -/
def containsSub (tag sub : String) : Bool := decide (List.IsInfix sub.toList tag.toList)

/-- log_weights_distribution: for each (name, tensor) pair replace dots with
slashes in the name; if any configured substring occurs in the name, write a
histogram of the values; if gradient logging is on, also write a histogram of
the gradient values under the /grad suffixed key.  When gradient logging is
on and a tensor has no gradient, to_np(value.grad) fails on Python None,
embedded as Except.error.  A None named_params argument returns immediately.
The loop body is the named step function distStep. -/
def distStep (log_gradients : Bool) (logged_params : List String) (steps_completed : Int)
    (evs : List WriteEvent) (tv : String × Tensor) : Except String (List WriteEvent) := do
  let tag := replaceChar (Char.ofNat 46) (Char.ofNat 47) tv.1
  let evs := if logged_params.any (containsSub tag) then
      evs ++ [WriteEvent.histogram tag tv.2.data steps_completed]
    else evs
  if log_gradients then
    match tv.2.grad with
    | none => throw "AttributeError"
    | some g => pure (evs ++ [WriteEvent.histogram (tag ++ "/grad") g steps_completed])
  else pure evs

def log_weights_distribution (log_gradients : Bool) (logged_params : List String)
    (named_params : Option (List (String × Tensor))) (steps_completed : Int) :
    Except String (List WriteEvent) :=
  match named_params with
  | none => .ok []
  | some l => l.foldlM (distStep log_gradients logged_params steps_completed) []

/-- A module of the model as seen by log_model_buffers: its name from
named_modules(), whether distiller.has_children finds child sub-modules, and
its state dict. -/
structure Module where
  name : String
  hasChildren : Bool
  sd : List (String × Tensor)
deriving DecidableEq

/-- The flat values a found buffer contributes: sd[buf_name].view(-1).tolist();
a missing name raises KeyError which the source catches and skips, embedded
as the none branch contributing nothing. -/
def bufferValues (sd : List (String × Tensor)) (bufName : String) : List ℚ :=
  match sd.lookup bufName with
  | none => []
  | some t => t.data

/-- log_model_buffers: for every module without children, collect the
flattened values of each named buffer that exists in its state dict (missing
names are skipped via the KeyError handler), and if any values were
collected write one add_scalars group at tag_prefix/module_name with step
total*epoch + completed; freq is accepted and unused.  The loop body is the
named step function bufferStep. -/
def bufferStep (buffer_names : List String) (tagPre : String) (step : Int)
    (evs : List WriteEvent) (m : Module) : List WriteEvent :=
  if m.hasChildren then evs
  else
    let values := buffer_names.foldl (fun vs bn => vs ++ bufferValues m.sd bn) []
    if values = [] then evs
    else evs ++ [WriteEvent.scalars (tagPre ++ "/" ++ m.name) values step]

def log_model_buffers (modules : List Module) (buffer_names : List String)
    (tagPre : String) (epoch completed total freq : Int) : List WriteEvent :=
  modules.foldl (bufferStep buffer_names tagPre (total * epoch + completed)) []

end TensorBoardLogger

namespace CsvLogger

/-- Modelled from the spec: the external size_to_str utility renders a shape
as a human-readable string, e.g. shape (4,4) becomes 4x4. -/
def size_to_str (shape : List Nat) : String :=
  String.intercalate "x" (shape.map toString)

/-- One CSV cell: the Python csv writer receives strings, ints and floats. -/
inductive Cell where
  | str (s : String)
  | int (n : Int)
  | rat (q : ℚ)
deriving DecidableEq

/-- The fixed header row written first. -/
def csvHeader : List Cell :=
  [Cell.str "parameter", Cell.str "shape", Cell.str "volume",
   Cell.str "sparse volume", Cell.str "sparsity level"]

/-- The row written for one qualifying parameter whose density d did not
raise: name, shape string, numel, int(d*numel), (1-d)*100. -/
def csvRow (p : String × Tensor) : List Cell :=
  [Cell.str p.1, Cell.str (size_to_str p.2.shape), Cell.int (p.2.numel : Int),
   Cell.int ⌊densityQ p.2 * (p.2.numel : ℚ)⌋, Cell.rat ((1 - densityQ p.2) * 100)]

/-- The loop body of CsvLogger.log_weights_sparsity: the data rows actually
written, paired with whether the loop raised.  A qualifying parameter with
numel zero makes the density call raise ZeroDivisionError, stopping the loop
with no further rows.  The params_size and sparse_params_size accumulators of
the source are written but never read after the loop, so they are omitted. -/
def csvRowsRun : List (String × Tensor) → List (List Cell) × Bool
  | [] => ([], false)
  | p :: rest =>
    if qualifies p.2 then
      if p.2.numel = 0 then ([], true)
      else
        let r := csvRowsRun rest
        (csvRow p :: r.1, r.2)
    else csvRowsRun rest

/-- CsvLogger.log_weights_sparsity as the rows of the produced file: the
header row followed by one row per qualifying parameter, or the propagated
ZeroDivisionError when a qualifying parameter is empty. -/
def log_weights_sparsity (sd : List (String × Tensor)) :
    Except String (List (List Cell)) :=
  let r := csvRowsRun sd
  if r.2 then .error "ZeroDivisionError" else .ok (csvHeader :: r.1)

/-- One operation on the file handle opened by the with statement. -/
inductive FileOp where
  | opn
  | writeRow (r : List Cell)
  | close
deriving DecidableEq

/-- The file-handle trace of one CsvLogger.log_weights_sparsity call.  The
with statement opens the file, runs the body, and closes the handle on every
exit path, normal or exceptional: this close-on-exit guarantee of the Python
with statement is embedded by appending the close event unconditionally.
failAfter injects an exception after that many body writes (covering
mid-write failures); the body can also raise on its own through density,
which csvRowsRun already truncates. -/
def csv_trace (sd : List (String × Tensor)) (failAfter : Option Nat) : List FileOp :=
  let bodyRows := csvHeader :: (csvRowsRun sd).1
  let written := match failAfter with
    | none => bodyRows
    | some k => bodyRows.take k
  FileOp.opn :: (written.map FileOp.writeRow ++ [FileOp.close])

end CsvLogger

/-- The model state a logger call can read: the state dict of the model and
its named modules. -/
structure ModelState where
  sd : List (String × Tensor)
  modules : List TensorBoardLogger.Module
deriving DecidableEq

/-- One logging operation together with its non-model arguments. -/
inductive LoggerOp where
  | trainingProgress (pre : String) (stats : List (String × ℚ))
      (epoch completed total freq : Int)
  | weightsSparsityTB (epoch : Int)
  | filterMagnitude (epoch : Int)
  | weightsDistribution (log_gradients : Bool) (logged_params : List String)
      (named_params : Option (List (String × Tensor))) (steps_completed : Int)
  | modelBuffers (buffer_names : List String) (tagPre : String)
      (epoch completed total freq : Int)
  | weightsSparsityCsv

/-- What a logging operation produced. -/
inductive LogOutput where
  | events (evs : List WriteEvent)
  | eventsE (r : Except String (List WriteEvent))
  | file (r : Except String (List (List CsvLogger.Cell)))

/-- State-passing embedding of one logger call: every method only reads the
model (state_dict() and named_modules()), no statement assigns into it, so
the translation returns the model state unchanged next to the output. -/
def runLoggerOp (op : LoggerOp) (m : ModelState) : ModelState × LogOutput :=
  match op with
  | .trainingProgress pre stats epoch completed total freq =>
    (m, .events (TensorBoardLogger.log_training_progress (pre, stats) epoch completed total freq))
  | .weightsSparsityTB epoch =>
    (m, .eventsE (TensorBoardLogger.log_weights_sparsity m.sd epoch))
  | .filterMagnitude epoch =>
    (m, .events (TensorBoardLogger.log_weights_filter_magnitude m.sd epoch))
  | .weightsDistribution lg lp nps steps =>
    (m, .eventsE (TensorBoardLogger.log_weights_distribution lg lp nps steps))
  | .modelBuffers bns tagPre epoch completed total freq =>
    (m, .events (TensorBoardLogger.log_model_buffers m.modules bns tagPre epoch completed total freq))
  | .weightsSparsityCsv =>
    (m, .file (CsvLogger.log_weights_sparsity m.sd))

/-- The histogram event a single (name, tensor) pair contributes when
gradient logging is off: present exactly when some configured substring
occurs in the slash-converted name. -/
def histOpt (logged_params : List String) (steps : Int) (tv : String × Tensor) :
    Option WriteEvent :=
  let tag := replaceChar (Char.ofNat 46) (Char.ofNat 47) tv.1
  if logged_params.any (TensorBoardLogger.containsSub tag) then
    some (WriteEvent.histogram tag tv.2.data steps)
  else none

/-- The add_scalars group a single leaf module contributes: the collected
values of its found buffers, or nothing when no values were collected. -/
def moduleGroup (buffer_names : List String) (tagPre : String) (step : Int)
    (m : TensorBoardLogger.Module) : Option WriteEvent :=
  let values := buffer_names.flatMap (TensorBoardLogger.bufferValues m.sd)
  if values = [] then none
  else some (WriteEvent.scalars (tagPre ++ "/" ++ m.name) values step)

/-- The qualifying parameters of a state dict: those with rank 2, 3 or 4. -/
def qualFilter (sd : List (String × Tensor)) : List (String × Tensor) :=
  sd.filter (fun p => qualifies p.2)

/-- The two per-parameter scalars log_weights_sparsity writes for one
qualifying parameter: flat sparsity and 2D sparsity, both as percentages. -/
def perParamEvents (epoch : Int) (p : String × Tensor) : List WriteEvent :=
  [WriteEvent.scalar ("sparsity/weights/" ++ p.1) (sparsityQ p.2 * 100) epoch,
   WriteEvent.scalar ("sparsity-2D/weights/" ++ p.1) (sparsity_2D p.2 * 100) epoch]

/-- The row the claim describes for one qualifying parameter: name, shape
string, element count, count of nonzero elements, sparsity percentage. -/
def csvRowSpec (p : String × Tensor) : List CsvLogger.Cell :=
  [CsvLogger.Cell.str p.1, CsvLogger.Cell.str (CsvLogger.size_to_str p.2.shape),
   CsvLogger.Cell.int (p.2.numel : Int), CsvLogger.Cell.int (p.2.nonzeroCount : Int),
   CsvLogger.Cell.rat ((1 - densityQ p.2) * 100)]

/-! Helper lemmas about the loop embeddings. -/

theorem foldl_concat_eq_map {α β : Type} (f : α → β) (l : List α) (acc : List β) :
    l.foldl (fun a x => a ++ [f x]) acc = acc ++ l.map f := by
  induction l generalizing acc with
  | nil => simp
  | cons x xs ih => simp [List.foldl_cons, ih]

theorem foldl_append_eq_flatMap {α β : Type} (g : α → List β) (l : List α) (acc : List β) :
    l.foldl (fun a x => a ++ g x) acc = acc ++ l.flatMap g := by
  induction l generalizing acc with
  | nil => simp
  | cons x xs ih => simp [List.foldl_cons, ih]

/-! Claim theorems. -/

/-- C4: log_training_progress writes one scalar per stats entry, keyed by the
prefixed tag with every space replaced by an underscore, at global step
total*epoch + completed; in particular total=10, epoch=3, completed=4 gives
global step 34. -/
theorem log_training_progress_spec (pre : String) (stats : List (String × ℚ))
    (epoch completed total freq : Int) :
    TensorBoardLogger.log_training_progress (pre, stats) epoch completed total freq =
      stats.map (fun tv => WriteEvent.scalar (pre ++ replaceChar (Char.ofNat 32) (Char.ofNat 95) tv.1) tv.2
        (total * epoch + completed)) ∧
    TensorBoardLogger.total_steps 10 3 4 = 34 := by
  refine ⟨?_, by decide⟩
  simp only [TensorBoardLogger.log_training_progress, TensorBoardLogger.total_steps,
    foldl_concat_eq_map, List.nil_append]

/-- C7: log_weights_distribution with named_params None returns immediately
with zero writes. -/
theorem log_weights_distribution_none_spec (log_gradients : Bool)
    (logged_params : List String) (steps_completed : Int) :
    TensorBoardLogger.log_weights_distribution log_gradients logged_params none
      steps_completed = .ok [] := rfl

/-- C10: the freq argument of log_training_progress and log_model_buffers has
no effect on the writes: two calls differing only in freq produce the same
output. -/
theorem freq_unused_spec (stats : String × List (String × ℚ))
    (modules : List TensorBoardLogger.Module) (buffer_names : List String)
    (tagPre : String) (epoch completed total f1 f2 : Int) :
    TensorBoardLogger.log_training_progress stats epoch completed total f1 =
      TensorBoardLogger.log_training_progress stats epoch completed total f2 ∧
    TensorBoardLogger.log_model_buffers modules buffer_names tagPre
        epoch completed total f1 =
      TensorBoardLogger.log_model_buffers modules buffer_names tagPre
        epoch completed total f2 :=
  ⟨rfl, rfl⟩

/-- C9: every logging operation leaves the model state unchanged: the
state-passing embedding returns the model it was given. -/
theorem runLoggerOp_preserves_model (op : LoggerOp) (m : ModelState) :
    (runLoggerOp op m).1 = m := by
  cases op <;> rfl

theorem count_close_map_writeRow (l : List (List CsvLogger.Cell)) :
    (l.map CsvLogger.FileOp.writeRow).count CsvLogger.FileOp.close = 0 := by
  rw [List.count_eq_zero]
  intro h
  rcases List.mem_map.mp h with ⟨r, _, hr⟩
  cases hr

theorem count_opn_map_writeRow (l : List (List CsvLogger.Cell)) :
    (l.map CsvLogger.FileOp.writeRow).count CsvLogger.FileOp.opn = 0 := by
  rw [List.count_eq_zero]
  intro h
  rcases List.mem_map.mp h with ⟨r, _, hr⟩
  cases hr

theorem trace_shape_spec (w : List (List CsvLogger.Cell)) :
    (CsvLogger.FileOp.opn :: (w.map CsvLogger.FileOp.writeRow ++
        [CsvLogger.FileOp.close])).head? = some CsvLogger.FileOp.opn ∧
    (CsvLogger.FileOp.opn :: (w.map CsvLogger.FileOp.writeRow ++
        [CsvLogger.FileOp.close])).getLast? = some CsvLogger.FileOp.close ∧
    (CsvLogger.FileOp.opn :: (w.map CsvLogger.FileOp.writeRow ++
        [CsvLogger.FileOp.close])).count CsvLogger.FileOp.close = 1 ∧
    (CsvLogger.FileOp.opn :: (w.map CsvLogger.FileOp.writeRow ++
        [CsvLogger.FileOp.close])).count CsvLogger.FileOp.opn = 1 := by
  refine ⟨rfl, ?_, ?_, ?_⟩
  · rw [show CsvLogger.FileOp.opn :: (w.map CsvLogger.FileOp.writeRow ++
        [CsvLogger.FileOp.close]) =
      (CsvLogger.FileOp.opn :: w.map CsvLogger.FileOp.writeRow) ++
        [CsvLogger.FileOp.close] from rfl]
    exact List.getLast?_concat _
  · simp [List.count_cons, List.count_append, count_close_map_writeRow]
  · simp [List.count_cons, List.count_append, count_opn_map_writeRow]

/-- C8: the file handle trace of one CsvLogger.log_weights_sparsity call, for
every model and every injected mid-write failure point, opens the file first
and closes it exactly once as the final operation: the handle is scoped to
the call and released on every exit path. -/
theorem csv_trace_spec (sd : List (String × Tensor)) (failAfter : Option Nat) :
    (CsvLogger.csv_trace sd failAfter).head? = some CsvLogger.FileOp.opn ∧
    (CsvLogger.csv_trace sd failAfter).getLast? = some CsvLogger.FileOp.close ∧
    (CsvLogger.csv_trace sd failAfter).count CsvLogger.FileOp.close = 1 ∧
    (CsvLogger.csv_trace sd failAfter).count CsvLogger.FileOp.opn = 1 := by
  unfold CsvLogger.csv_trace
  exact trace_shape_spec _

theorem foldlM_sparsityStep_nonqual (epoch : Int) (sd : List (String × Tensor))
    (h : ∀ p ∈ sd, qualifies p.2 = false) (acc : Nat × ℚ × List WriteEvent) :
    sd.foldlM (TensorBoardLogger.sparsityStep epoch) acc = .ok acc := by
  induction sd generalizing acc with
  | nil => rfl
  | cons p rest ih =>
    rw [List.foldlM_cons]
    have hp : qualifies p.2 = false := h p (by simp)
    simp only [TensorBoardLogger.sparsityStep, hp, Bool.false_eq_true, if_false]
    rw [pure_bind]
    exact ih (fun q hq => h q (List.mem_cons_of_mem p hq)) acc

/-- C2: on a model with no parameter of rank 2, 3 or 4, log_weights_sparsity
reaches the aggregate computation with params_size still zero and the
division 100*(1 - sparse_params_size/params_size) raises ZeroDivisionError:
nothing guards the division. -/
theorem log_weights_sparsity_no_qualifying (sd : List (String × Tensor)) (epoch : Int)
    (h : ∀ p ∈ sd, qualifies p.2 = false) :
    sd.foldlM (TensorBoardLogger.sparsityStep epoch) (0, 0, []) =
      Except.ok ((0 : Nat), (0 : ℚ), ([] : List WriteEvent)) ∧
    TensorBoardLogger.log_weights_sparsity sd epoch = .error "ZeroDivisionError" := by
  have hfold := foldlM_sparsityStep_nonqual epoch sd h (0, 0, [])
  refine ⟨hfold, ?_⟩
  unfold TensorBoardLogger.log_weights_sparsity
  rw [hfold]
  rfl

/-- C2 witness: a model whose only parameter is a rank-1 bias vector has no
qualifying parameter and makes log_weights_sparsity raise. -/
theorem log_weights_sparsity_no_qualifying_witness :
    (∀ p ∈ [("bias", Tensor.mk [3] [1, 2, 3] none)], qualifies p.2 = false) ∧
    ([("bias", Tensor.mk [3] [1, 2, 3] none)].foldlM
        (TensorBoardLogger.sparsityStep 0) (0, 0, []) =
      Except.ok ((0 : Nat), (0 : ℚ), ([] : List WriteEvent)) ∧
    TensorBoardLogger.log_weights_sparsity [("bias", Tensor.mk [3] [1, 2, 3] none)] 0 =
      .error "ZeroDivisionError") :=
  ⟨by decide, log_weights_sparsity_no_qualifying _ 0 (by decide)⟩

theorem distStep_no_grad (logged_params : List String) (steps : Int)
    (evs : List WriteEvent) (tv : String × Tensor) :
    TensorBoardLogger.distStep false logged_params steps evs tv =
      .ok (evs ++ (histOpt logged_params steps tv).toList) := by
  simp only [TensorBoardLogger.distStep, histOpt, Bool.false_eq_true, if_false]
  split
  · rfl
  · show Except.ok evs = Except.ok (evs ++ [])
    rw [List.append_nil]

theorem foldlM_distStep_no_grad (logged_params : List String) (steps : Int)
    (l : List (String × Tensor)) (acc : List WriteEvent) :
    l.foldlM (TensorBoardLogger.distStep false logged_params steps) acc =
      .ok (acc ++ l.filterMap (histOpt logged_params steps)) := by
  induction l generalizing acc with
  | nil =>
    simp only [List.foldlM_nil, List.filterMap_nil, List.append_nil]
    rfl
  | cons tv rest ih =>
    rw [List.foldlM_cons, distStep_no_grad]
    show rest.foldlM _ _ = _
    rw [ih]
    cases h : histOpt logged_params steps tv <;>
      simp [List.filterMap_cons, h, List.append_assoc]

/-- C5: log_weights_distribution converts dots to slashes in each name and,
under the default configuration, writes a value histogram exactly for names
containing a configured substring: layer1.bias yields no histogram,
layer1.weight yields exactly one, and with gradient logging enabled and a
gradient present layer1.weight yields exactly two, the second under the
/grad suffixed key. -/
theorem log_weights_distribution_spec :
    (∀ (l : List (String × Tensor)) (steps : Int),
      TensorBoardLogger.log_weights_distribution
          TensorBoardLogger.default_log_gradients
          TensorBoardLogger.default_logged_params (some l) steps =
        .ok (l.filterMap (histOpt TensorBoardLogger.default_logged_params steps))) ∧
    (∀ (t : Tensor) (steps : Int),
      TensorBoardLogger.log_weights_distribution false ["weight"]
          (some [("layer1.bias", t)]) steps = .ok []) ∧
    (∀ (t : Tensor) (steps : Int),
      TensorBoardLogger.log_weights_distribution false ["weight"]
          (some [("layer1.weight", t)]) steps =
        .ok [WriteEvent.histogram "layer1/weight" t.data steps]) ∧
    (∀ (shape : List Nat) (d g : List ℚ) (steps : Int),
      TensorBoardLogger.log_weights_distribution true ["weight"]
          (some [("layer1.weight", Tensor.mk shape d (some g))]) steps =
        .ok [WriteEvent.histogram "layer1/weight" d steps,
             WriteEvent.histogram "layer1/weight/grad" g steps]) := by
  refine ⟨fun l steps => ?_, fun t steps => rfl, fun t steps => rfl,
    fun shape d g steps => rfl⟩
  simp only [TensorBoardLogger.log_weights_distribution,
    TensorBoardLogger.default_log_gradients, TensorBoardLogger.default_logged_params]
  rw [foldlM_distStep_no_grad]
  rw [List.nil_append]

theorem bufferStep_eq (buffer_names : List String) (tagPre : String) (step : Int)
    (evs : List WriteEvent) (m : TensorBoardLogger.Module) :
    TensorBoardLogger.bufferStep buffer_names tagPre step evs m =
      evs ++ (if m.hasChildren then []
        else (moduleGroup buffer_names tagPre step m).toList) := by
  by_cases hc : m.hasChildren = true
  · simp [TensorBoardLogger.bufferStep, hc]
  · simp only [Bool.not_eq_true] at hc
    simp only [TensorBoardLogger.bufferStep, moduleGroup, hc, Bool.false_eq_true,
      if_false, foldl_append_eq_flatMap, List.nil_append]
    split <;> simp

theorem foldl_bufferStep (buffer_names : List String) (tagPre : String) (step : Int)
    (modules : List TensorBoardLogger.Module) (acc : List WriteEvent) :
    modules.foldl (TensorBoardLogger.bufferStep buffer_names tagPre step) acc =
      acc ++ (modules.filter (fun m => !m.hasChildren)).filterMap
        (moduleGroup buffer_names tagPre step) := by
  induction modules generalizing acc with
  | nil => simp
  | cons m rest ih =>
    rw [List.foldl_cons, bufferStep_eq, ih]
    by_cases hc : m.hasChildren = true
    · simp [hc, List.filter_cons]
    · simp only [Bool.not_eq_true] at hc
      cases h : moduleGroup buffer_names tagPre step m <;>
        simp [hc, List.filter_cons, List.filterMap_cons, h, List.append_assoc]

/-- C6 amended: log_model_buffers skips a buffer name absent from a leaf
module state without error, and writes, per module without child sub-modules,
exactly one add_scalars group at tag_prefix/module_name with step
total*epoch + completed when the collected values are nonempty, and nothing
when no values were collected (a found but empty buffer collects no values
and produces no group). -/
theorem log_model_buffers_spec (modules : List TensorBoardLogger.Module)
    (buffer_names : List String) (tagPre : String)
    (epoch completed total freq : Int) :
    TensorBoardLogger.log_model_buffers modules buffer_names tagPre
        epoch completed total freq =
      (modules.filter (fun m => !m.hasChildren)).filterMap
        (moduleGroup buffer_names tagPre (total * epoch + completed)) := by
  unfold TensorBoardLogger.log_model_buffers
  rw [foldl_bufferStep, List.nil_append]

theorem exceptOkBind {α β : Type} (a : α) (f : α → Except String β) :
    (Except.ok a >>= f) = f a := rfl

theorem sparsityStep_qual (epoch : Int) (acc : Nat × ℚ × List WriteEvent)
    (p : String × Tensor) (hq : qualifies p.2 = true) (hn : p.2.numel ≠ 0) :
    TensorBoardLogger.sparsityStep epoch acc p =
      .ok (acc.1 + p.2.numel, acc.2.1 + (p.2.numel : ℚ) * densityQ p.2,
        acc.2.2 ++ perParamEvents epoch p) := by
  unfold TensorBoardLogger.sparsityStep
  rw [if_pos hq]
  rw [show density p.2 = Except.ok (densityQ p.2) from by unfold density; rw [if_neg hn]]
  rfl

theorem sparsityStep_nonqual (epoch : Int) (acc : Nat × ℚ × List WriteEvent)
    (p : String × Tensor) (hq : qualifies p.2 = false) :
    TensorBoardLogger.sparsityStep epoch acc p = .ok acc := by
  unfold TensorBoardLogger.sparsityStep
  rw [if_neg]
  · rfl
  · simp [hq]

theorem foldlM_sparsityStep (epoch : Int) :
    ∀ (sd : List (String × Tensor)),
      (∀ p ∈ sd, qualifies p.2 = true → p.2.numel ≠ 0) →
      ∀ (ps : Nat) (ss : ℚ) (evs : List WriteEvent),
      sd.foldlM (TensorBoardLogger.sparsityStep epoch) (ps, ss, evs) =
        .ok (ps + ((qualFilter sd).map (fun p => p.2.numel)).sum,
             ss + ((qualFilter sd).map (fun p => (p.2.numel : ℚ) * densityQ p.2)).sum,
             evs ++ (qualFilter sd).flatMap (perParamEvents epoch)) := by
  intro sd
  induction sd with
  | nil =>
    intro h ps ss evs
    simp only [List.foldlM_nil, qualFilter, List.filter_nil, List.map_nil, List.sum_nil,
      List.flatMap_nil, List.append_nil, Nat.add_zero, add_zero]
    rfl
  | cons p rest ih =>
    intro h ps ss evs
    rw [List.foldlM_cons]
    by_cases hq : qualifies p.2 = true
    · have hn := h p (List.mem_cons_self p rest) hq
      rw [sparsityStep_qual epoch (ps, ss, evs) p hq hn, exceptOkBind,
        ih (fun q hq' hq2 => h q (List.mem_cons_of_mem p hq') hq2)]
      simp [qualFilter, List.filter_cons, hq, add_assoc, List.append_assoc]
    · have hq' : qualifies p.2 = false := Bool.not_eq_true _ ▸ eq_false_of_ne_true hq
      rw [sparsityStep_nonqual epoch (ps, ss, evs) p hq', exceptOkBind,
        ih (fun q hq2 hq3 => h q (List.mem_cons_of_mem p hq2) hq3)]
      simp only [qualFilter, List.filter_cons, hq', Bool.false_eq_true, if_false]

/-- C1 amended: on a model with at least one rank-2/3/4 parameter, all of
whose rank-2/3/4 parameters are nonempty, log_weights_sparsity writes
exactly two scalars per qualifying parameter, sparsity/weights/name and
sparsity-2D/weights/name as percentages keyed by epoch, followed by exactly
one aggregate scalar sparsity/weights/total equal to
100*(1 - sum(density_i*numel_i)/sum(numel_i)) over the qualifying
parameters. -/
theorem log_weights_sparsity_spec (sd : List (String × Tensor)) (epoch : Int)
    (h0 : qualFilter sd ≠ [])
    (h : ∀ p ∈ sd, qualifies p.2 = true → p.2.numel ≠ 0) :
    TensorBoardLogger.log_weights_sparsity sd epoch =
      .ok ((qualFilter sd).flatMap (perParamEvents epoch) ++
        [WriteEvent.scalar "sparsity/weights/total"
          (100 * (1 -
            ((qualFilter sd).map (fun p => densityQ p.2 * (p.2.numel : ℚ))).sum /
            ((qualFilter sd).map (fun p => (p.2.numel : ℚ))).sum)) epoch]) := by
  have hfold := foldlM_sparsityStep epoch sd h 0 0 []
  rw [zero_add, zero_add, List.nil_append] at hfold
  have hS : ((qualFilter sd).map (fun p => p.2.numel)).sum ≠ 0 := by
    obtain ⟨q, qs, hqq⟩ := List.exists_cons_of_ne_nil h0
    have hqmem : q ∈ qualFilter sd := hqq ▸ List.mem_cons_self q qs
    have hqsd := List.mem_filter.mp hqmem
    have hqn : q.2.numel ≠ 0 := h q hqsd.1 hqsd.2
    rw [hqq, List.map_cons, List.sum_cons]
    intro hcontra
    omega
  unfold TensorBoardLogger.log_weights_sparsity
  rw [hfold, exceptOkBind]
  rw [if_neg hS]
  have hW : ((qualFilter sd).map (fun p => (p.2.numel : ℚ) * densityQ p.2)).sum =
      ((qualFilter sd).map (fun p => densityQ p.2 * (p.2.numel : ℚ))).sum :=
    congrArg List.sum (List.map_congr_left (fun q _ => mul_comm _ _))
  have hScast : ((((qualFilter sd).map (fun p => p.2.numel)).sum : Nat) : ℚ) =
      ((qualFilter sd).map (fun p => (p.2.numel : ℚ))).sum := by
    rw [Nat.cast_list_sum, List.map_map]
    rfl
  rw [hW, hScast]
  rfl

/-- C1 witness: a single 2 by 2 parameter with two nonzero entries satisfies
the hypotheses, and the theorem applies to it. -/
theorem log_weights_sparsity_spec_witness :
    (qualFilter [("w", Tensor.mk [2, 2] [1, 0, 0, 2] none)] ≠ [] ∧
      ∀ p ∈ [("w", Tensor.mk [2, 2] [1, 0, 0, 2] none)],
        qualifies p.2 = true → p.2.numel ≠ 0) ∧
    TensorBoardLogger.log_weights_sparsity
        [("w", Tensor.mk [2, 2] [1, 0, 0, 2] none)] 0 =
      .ok ((qualFilter [("w", Tensor.mk [2, 2] [1, 0, 0, 2] none)]).flatMap
          (perParamEvents 0) ++
        [WriteEvent.scalar "sparsity/weights/total"
          (100 * (1 -
            ((qualFilter [("w", Tensor.mk [2, 2] [1, 0, 0, 2] none)]).map
              (fun p => densityQ p.2 * (p.2.numel : ℚ))).sum /
            ((qualFilter [("w", Tensor.mk [2, 2] [1, 0, 0, 2] none)]).map
              (fun p => (p.2.numel : ℚ))).sum)) 0]) :=
  ⟨⟨by decide, by decide⟩, log_weights_sparsity_spec _ 0 (by decide) (by decide)⟩

/-- C1 counterexample: a model whose single parameter has rank 2 but zero
elements (shape 2 by 0): the parameter qualifies, yet log_weights_sparsity
raises ZeroDivisionError inside the density call and writes neither the two
per-parameter scalars nor the aggregate scalar the claim requires. -/
theorem log_weights_sparsity_cex :
    qualifies (Tensor.mk [2, 0] [] none) = true ∧
    TensorBoardLogger.log_weights_sparsity [("w", Tensor.mk [2, 0] [] none)] 0 =
      .error "ZeroDivisionError" := by
  decide

/-- C6 counterexample: a leaf module whose listed buffer exists in its state
dict (the lookup succeeds) but holds an empty tensor: the buffer is found,
yet log_model_buffers writes no group at all for the module, against the
claim that one group is written whenever at least one listed buffer was
found. -/
theorem log_model_buffers_cex :
    (List.lookup "buf" [("buf", Tensor.mk [0] [] none)]).isSome = true ∧
    TensorBoardLogger.log_model_buffers
      [TensorBoardLogger.Module.mk "m" false [("buf", Tensor.mk [0] [] none)]]
      ["buf"] "tag" 0 0 0 0 = [] := by
  decide

theorem csvRow_eq_spec (p : String × Tensor) (hn : p.2.numel ≠ 0) :
    CsvLogger.csvRow p = csvRowSpec p := by
  unfold CsvLogger.csvRow csvRowSpec
  have hnz : densityQ p.2 * (p.2.numel : ℚ) = (p.2.nonzeroCount : ℚ) := by
    unfold densityQ
    exact div_mul_cancel₀ _ (Nat.cast_ne_zero.mpr hn)
  rw [hnz, Int.floor_natCast]

theorem csvRowsRun_eq (sd : List (String × Tensor))
    (h : ∀ p ∈ sd, qualifies p.2 = true → p.2.numel ≠ 0) :
    CsvLogger.csvRowsRun sd = ((qualFilter sd).map CsvLogger.csvRow, false) := by
  induction sd with
  | nil => rfl
  | cons p rest ih =>
    have ihr := ih (fun q a b => h q (List.mem_cons_of_mem p a) b)
    by_cases hq : qualifies p.2 = true
    · have hn := h p (List.mem_cons_self p rest) hq
      simp only [CsvLogger.csvRowsRun, hq, if_true, hn, if_false, ihr]
      simp [qualFilter, List.filter_cons, hq]
    · have hq' : qualifies p.2 = false := eq_false_of_ne_true hq
      simp only [CsvLogger.csvRowsRun, hq', Bool.false_eq_true, if_false, ihr]
      simp [qualFilter, List.filter_cons, hq']

/-- C3 amended: CsvLogger.log_weights_sparsity on a model all of whose
rank-2/3/4 parameters are nonempty produces the fixed header row followed
by exactly one row per qualifying parameter holding the parameter name, its
shape string, its element count, its nonzero-element count int(density *
numel), and the sparsity percentage (1-density)*100. -/
theorem csv_log_weights_sparsity_spec (sd : List (String × Tensor))
    (h : ∀ p ∈ sd, qualifies p.2 = true → p.2.numel ≠ 0) :
    CsvLogger.log_weights_sparsity sd =
      .ok (CsvLogger.csvHeader :: (qualFilter sd).map csvRowSpec) := by
  have hmap : (qualFilter sd).map CsvLogger.csvRow = (qualFilter sd).map csvRowSpec :=
    List.map_congr_left (fun q hq => csvRow_eq_spec q
      (h q (List.mem_filter.mp hq).1 (List.mem_filter.mp hq).2))
  unfold CsvLogger.log_weights_sparsity
  rw [csvRowsRun_eq sd h, hmap]
  rfl

/-- C3 witness: a model with one 4 by 4 parameter with six nonzero entries
yields the header and the single row name, 4x4, 16, 6, 62.5. -/
theorem csv_log_weights_sparsity_spec_witness :
    (∀ p ∈ [("name",
        Tensor.mk [4, 4] [1, 2, 3, 0, 0, 0, 0, 0, 0, 0, 4, 5, 6, 0, 0, 0] none)],
      qualifies p.2 = true → p.2.numel ≠ 0) ∧
    CsvLogger.log_weights_sparsity
        [("name",
          Tensor.mk [4, 4] [1, 2, 3, 0, 0, 0, 0, 0, 0, 0, 4, 5, 6, 0, 0, 0] none)] =
      .ok [[CsvLogger.Cell.str "parameter", CsvLogger.Cell.str "shape",
            CsvLogger.Cell.str "volume", CsvLogger.Cell.str "sparse volume",
            CsvLogger.Cell.str "sparsity level"],
           [CsvLogger.Cell.str "name", CsvLogger.Cell.str "4x4",
            CsvLogger.Cell.int 16, CsvLogger.Cell.int 6,
            CsvLogger.Cell.rat (125 / 2)]] :=
  ⟨by decide, by
    rw [csv_log_weights_sparsity_spec _ (by decide)]
    norm_num [qualFilter, qualifies, Tensor.dim, CsvLogger.csvHeader, csvRowSpec,
      Tensor.numel, Tensor.nonzeroCount, densityQ]
    decide⟩

/-- C3 counterexample: a model whose single parameter has rank 3 and zero
elements: the parameter qualifies, but the density call raises
ZeroDivisionError and no row is written for it. -/
theorem csv_log_weights_sparsity_cex :
    qualifies (Tensor.mk [3, 0, 2] [] none) = true ∧
    CsvLogger.log_weights_sparsity [("w", Tensor.mk [3, 0, 2] [] none)] =
      .error "ZeroDivisionError" := by
  decide

end TBLogger
